import Mathlib

/-!
Verification of the data-reshaping and interaction core of `src/app.py`
(an interactive electricity-statistics dashboard).

The pandas pipeline is shallowly embedded: tables are lists of records,
missing values (NaN after `to_numeric(errors='coerce')`) are `none`,
numeric cells are rationals, and the Dash callbacks become pure functions
from their inputs and the module-level globals to their outputs and the
updated globals.
-/

namespace App

/-- A row of the long (melted) table `melted_data`:
Country, Features, Region plus the melted Year column (missing when the
year header failed numeric coercion) and the Value cell (missing when the
original cell failed numeric coercion). -/
structure LongRow where
  country : String
  features : String
  region : String
  year : Option Int
  value : Option ℚ
deriving DecidableEq, Repr

/-- A row of the normalized wide table `data`: the three (already
stripped) identity columns and one cell per year column, positionally
aligned with the table's list of year-column headers; a cell is `none`
when `pd.to_numeric(..., errors='coerce')` produced NaN. -/
structure WideRow where
  country : String
  features : String
  region : String
  cells : List (Option ℚ)
deriving DecidableEq, Repr

/-- Digit-by-digit parse of a year header: the accumulator is `none`
until a first digit is seen, and any non-digit character makes the whole
parse fail. -/
def parseYearChars : List Char → Option Nat → Option Nat
  | [], acc => acc
  | c :: cs, acc =>
    if c.isDigit then parseYearChars cs (some (acc.getD 0 * 10 + (c.toNat - 48)))
    else none

/-- Numeric coercion of a year-column header, as done by
`pd.to_numeric(melted_data['Year'], errors='coerce')`: an unparseable
header becomes missing (`none`), not an error. The app's year headers are
4-digit year strings, so the coercion is modelled on digit strings. -/
def parseYear (h : String) : Option Int :=
  (parseYearChars h.data none).map Int.ofNat

/-- `pd.melt(data, id_vars=['Country','Features','Region'], var_name='Year',
value_name='Value')` followed by the numeric coercion of the Year column:
one long row per (year column, wide row), keeping the identity columns and
pairing the coerced header with the row's cell for that column. -/
def melt (headers : List String) (rows : List WideRow) : List LongRow :=
  (headers.enum).flatMap fun hi =>
    rows.map fun r =>
      { country := r.country, features := r.features, region := r.region,
        year := parseYear hi.2, value := r.cells.getD hi.1 none }

/-- The mask `melted_data['Year'].isin(years_to_average)`:
`years_to_average` is a list of (possibly missing) years, and pandas
`isin` matches a missing Year against a missing entry of the list. -/
def yearIsIn (years : List (Option Int)) (r : LongRow) : Bool :=
  decide (r.year ∈ years)

/-- The grouping key of `groupby(['Country', 'Region', 'Features'])`. -/
def keyOf (r : LongRow) : String × String × String :=
  (r.country, r.region, r.features)

/-- The distinct (Country, Region, Features) keys occurring in a table:
the groups produced by `groupby` (group order is presentational). -/
def groupKeys (rows : List LongRow) : List (String × String × String) :=
  (rows.map keyOf).dedup

/-- A row of `grouped_df`: one (Country, Region, Features) group with the
mean of its Value column; the mean is missing when every Value in the
group is missing (pandas `mean` skips NaN and yields NaN for an all-NaN
group, keeping the group in the result). -/
structure AggRow where
  country : String
  region : String
  features : String
  value : Option ℚ
deriving DecidableEq, Repr

/-- `groupby([...])['Value'].mean()` for one group: the mean of the
non-missing values of the rows with key `k`, missing if there are none. -/
def groupMean (rows : List LongRow) (k : String × String × String) : Option ℚ :=
  let vals := (rows.filter fun r => decide (keyOf r = k)).filterMap (fun r => r.value)
  if vals.length = 0 then none else some (vals.sum / (vals.length : ℚ))

/-- The Aggregator: `melted_data[melted_data['Year'].isin(years_to_average)]
.groupby(['Country', 'Region', 'Features'])['Value'].mean().reset_index()`.
Rows are filtered by Year only; every key observed after the filter yields
one output row, whose mean skips missing Values. -/
def aggregate (years : List (Option Int)) (rows : List LongRow) : List AggRow :=
  let flt := rows.filter fun r => yearIsIn years r
  (groupKeys flt).map fun k =>
    { country := k.1, region := k.2.1, features := k.2.2, value := groupMean flt k }

/-- Python `list(range(a, b + 1))` as produced from the year slider's
`selected_range = [a, b]`. -/
def pyRange (a b : Int) : List Int :=
  (List.range (b + 1 - a).toNat).map fun i => a + Int.ofNat i

/-- The slider branch's `years_to_average`: all years of the inclusive
range, none of them missing. -/
def yearsFromRange (a b : Int) : List (Option Int) :=
  (pyRange a b).map some

theorem mem_pyRange {a b y : Int} (h : y ∈ pyRange a b) : a ≤ y ∧ y ≤ b := by
  unfold pyRange at h
  simp only [List.mem_map] at h
  obtain ⟨i, hi, rfl⟩ := h
  have hlt := List.mem_range.1 hi
  have hcast : Int.ofNat i = (i : Int) := rfl
  rw [hcast]
  omega

/-- The wide-table row of the France scenario: imports for Europe with
value 10 in 2020 and 20 in 2021. -/
def franceWide : WideRow :=
  { country := "France", features := "imports", region := "Europe",
    cells := [some 10, some 20] }

/-- C6: melting the France wide row over year columns 2020 and 2021 and
aggregating with the selected range [2020, 2021] yields exactly the
AggregateRow (France, Europe, imports) with mean 15: the Aggregator
computes the arithmetic mean of the non-missing Values of the rows whose
Year lies in the selected set, per (Country, Region, Features) group. -/
theorem france_mean_scenario :
    aggregate (yearsFromRange 2020 2021) (melt ["2020", "2021"] [franceWide]) =
      [{ country := "France", region := "Europe", features := "imports",
         value := some 15 }] := by
  have h : aggregate (yearsFromRange 2020 2021) (melt ["2020", "2021"] [franceWide]) =
      [{ country := "France", region := "Europe", features := "imports",
         value := some (((10 : ℚ) + (20 + 0)) / ((2 : ℕ) : ℚ)) }] := rfl
  rw [h]
  norm_num

/-- A wide row used to exhibit the Melter's treatment of a year column
whose header fails integer coercion. -/
def badWide : WideRow :=
  { country := "A", features := "f", region := "R", cells := [some 1] }

/-- C3 counterexample: with one identity row and the single unparseable
year header "20x1", the claim says the melted table has 0 rows (the row
dropped); the code keeps the row, with a missing Year. -/
theorem melt_keeps_badYear_row :
    parseYear "20x1" = none ∧
    melt ["20x1"] [badWide] ≠ [] ∧
    melt ["20x1"] [badWide] =
      [{ country := "A", features := "f", region := "R",
         year := none, value := some 1 }] := by
  refine ⟨by decide, by decide, by decide⟩

/-- C3 amended: the Melter always produces exactly N×Y rows — one per
(identity row, year column) — and every melted row carries the numeric
coercion of some header as its Year; a row whose header fails coercion is
kept with a missing Year, not dropped. -/
theorem melt_length_eq (headers : List String) (rows : List WideRow) :
    (melt headers rows).length = rows.length * headers.length ∧
    ∀ row ∈ melt headers rows, ∃ h ∈ headers, row.year = parseYear h := by
  constructor
  · have key : ∀ l : List (ℕ × String),
        (l.flatMap fun hi => rows.map fun r =>
          ({ country := r.country, features := r.features, region := r.region,
             year := parseYear hi.2, value := r.cells.getD hi.1 none } : LongRow)).length
          = l.length * rows.length := by
      intro l
      induction l with
      | nil => simp
      | cons x xs ih =>
        rw [List.flatMap_cons, List.length_append, List.length_map, ih,
          List.length_cons]
        ring
    have h2 := key headers.enum
    rw [List.enum_length, Nat.mul_comm] at h2
    exact h2
  · intro row hrow
    rcases List.mem_flatMap.1 hrow with ⟨hi, hmemHi, hrow2⟩
    rcases List.mem_map.1 hrow2 with ⟨r, _, rfl⟩
    exact ⟨hi.2, List.snd_mem_of_mem_enum hmemHi, rfl⟩

/-- A long row whose Value is missing but whose Year is in range. -/
def missingRow : LongRow :=
  { country := "A", features := "f", region := "R",
    year := some 2020, value := none }

/-- C1 counterexample: for the range [2020, 2020], the triple
("A", "R", "f") has exactly one row, in range but with a missing Value;
the claim says no AggregateRow for that triple appears, yet the code's
aggregate contains it (with a missing mean): the Aggregator filters on
Year only and keeps all-missing groups with NaN mean. -/
theorem aggregate_keeps_allMissing_group :
    missingRow.value = none ∧
    aggregate (yearsFromRange 2020 2020) [missingRow] =
      [{ country := "A", region := "R", features := "f", value := none }] := by
  refine ⟨rfl, by decide⟩

/-- C1 amended: for every range [a, b] with a ≤ b, each AggregateRow of
the recomputed aggregate has at least one contributing row of its
(Country, Region, Features) triple with Year inside [a, b] — a group with
no in-range row does not appear — but a triple whose in-range rows all
have missing Value still appears, with a missing mean. -/
theorem aggregate_group_has_inrange_row (a b : Int) (rows : List LongRow)
    (hab : a ≤ b) :
    ∀ g ∈ aggregate (yearsFromRange a b) rows,
      ∃ r ∈ rows, keyOf r = (g.country, g.region, g.features) ∧
        ∃ y, r.year = some y ∧ a ≤ y ∧ y ≤ b := by
  intro g hg
  rcases List.mem_map.1 hg with ⟨k, hk, rfl⟩
  have hk2 : k ∈ (rows.filter fun r => yearIsIn (yearsFromRange a b) r).map keyOf :=
    List.mem_dedup.1 hk
  rcases List.mem_map.1 hk2 with ⟨r, hrmem, rfl⟩
  rcases List.mem_filter.1 hrmem with ⟨hr, hyr⟩
  have hyr2 : r.year ∈ yearsFromRange a b := of_decide_eq_true hyr
  rcases List.mem_map.1 hyr2 with ⟨y, hy, hyy⟩
  have hb := mem_pyRange hy
  exact ⟨r, hr, rfl, y, hyy.symm, hb.1, hb.2⟩

/-- The long row of the aggregate-witness scenario: France imports in
2020 with value 10. -/
def row2020 : LongRow :=
  { country := "France", features := "imports", region := "Europe",
    year := some 2020, value := some 10 }

theorem aggregate_group_has_inrange_row_witness :
    ∃ r ∈ [missingRow],
      keyOf r = ("A", "R", "f") ∧
      ∃ y, r.year = some y ∧ (2020 : Int) ≤ y ∧ y ≤ 2020 :=
  aggregate_group_has_inrange_row 2020 2020 [missingRow] (by decide)
    { country := "A", region := "R", features := "f", value := none }
    (by decide)

/-- One step of Python `str.title()`: an alphabetic character is
uppercased when the previous character was not alphabetic and lowercased
otherwise; any other character passes through unchanged. -/
def titleChar (prevAlpha : Bool) (c : Char) : Char :=
  if c.isAlpha then (if prevAlpha then c.toLower else c.toUpper) else c

def pyTitleChars : Bool → List Char → List Char
  | _, [] => []
  | prevAlpha, c :: cs => titleChar prevAlpha c :: pyTitleChars c.isAlpha cs

/-- Python `str.title()` on ASCII strings, as applied by `update_treemap`
in `searched.title()`. -/
def pyTitle (s : String) : String :=
  String.mk (pyTitleChars false s.data)

/-- The membership test `x in melted_data['Country'].unique()` used by
both callbacks: whether a string occurs in the long table's country
vocabulary. -/
def knownCountry (melted : List LongRow) (s : String) : Bool :=
  decide (s ∈ melted.map LongRow.country)

/-- The chart-input dataset of `create_treemap(df, treemap_val)`:
`df[df["Features"] == treemap_val]`. The Region → Country hierarchy,
hover template and colors are rendering concerns of the plotting
library. -/
def create_treemap (df : List AggRow) (treemap_val : String) : List AggRow :=
  df.filter fun r => decide (r.features = treemap_val)

/-- The treemap selection repeated verbatim in each branch of
`update_treemap`: when the searched string is a known country the
aggregate is first filtered by `grouped_df["Country"] == searched.title()`;
otherwise — including a cleared search box (`searched` is `None`) — the
whole aggregate is used. -/
def treeForSearch (melted : List LongRow) (grouped : List AggRow)
    (treemap_val : String) (searched : Option String) : List AggRow :=
  match searched with
  | some s =>
    if knownCountry melted s then
      create_treemap (grouped.filter fun r => decide (r.country = pyTitle s))
        treemap_val
    else
      create_treemap grouped treemap_val
  | none => create_treemap grouped treemap_val

/-- A CSS style dict as returned by the callbacks for a chart's `style`
Output: `{'display': 'block'}` or `{'display': 'none'}`. -/
inductive Display where
  | block : Display
  | hidden : Display
deriving DecidableEq, Repr

/-- The module-level globals reassigned by `update_treemap`:
`treemap_value`, `years_to_average` and `grouped_df`. -/
structure Globals where
  treemap_value : String
  years_to_average : List (Option Int)
  grouped_df : List AggRow
deriving DecidableEq, Repr

/-- The Outputs of the `update_treemap` callback: the treemap figure's
dataset, the year-range text, the style of each of the three
country-scoped charts, and the `test-text` heading. -/
structure TreemapOutput where
  tree : List AggRow
  year_text : String
  barchart_style : Display
  dotplot_style : Display
  piechart_style : Display
  test_text : String
deriving DecidableEq, Repr

/-- The value of `ctx.triggered_id` inside `update_treemap`: which Input
fired the callback. -/
inductive Trigger where
  | treemapSearch : Trigger
  | treemapChoice : Trigger
  | yearSlider : Trigger
deriving DecidableEq, Repr

/-- The f-string `'Selected Year Range: a - b'`. -/
def yearText (selected_range : Int × Int) : String :=
  "Selected Year Range: " ++ toString selected_range.1 ++ " - " ++
    toString selected_range.2

/-- The callback `update_treemap(searched, selected_value, selected_range)`.
It branches on `ctx.triggered_id`: the choice branch first reassigns the
global `treemap_value`; the slider branch first recomputes the globals
`years_to_average` (as `list(range(a, b+1))`) and `grouped_df`. Every
branch then draws the treemap through the same search logic and returns
`{'display': 'none'}` for each of the three country-scoped charts together
with an empty `test-text`. -/
def update_treemap (melted : List LongRow) (trig : Trigger)
    (searched : Option String) (selected_value : String)
    (selected_range : Int × Int) (g : Globals) : TreemapOutput × Globals :=
  match trig with
  | Trigger.treemapSearch =>
    ({ tree := treeForSearch melted g.grouped_df g.treemap_value searched,
       year_text := yearText selected_range,
       barchart_style := Display.hidden, dotplot_style := Display.hidden,
       piechart_style := Display.hidden, test_text := "" }, g)
  | Trigger.treemapChoice =>
    let g2 : Globals := { g with treemap_value := selected_value }
    ({ tree := treeForSearch melted g2.grouped_df g2.treemap_value searched,
       year_text := yearText selected_range,
       barchart_style := Display.hidden, dotplot_style := Display.hidden,
       piechart_style := Display.hidden, test_text := "" }, g2)
  | Trigger.yearSlider =>
    let yrs := yearsFromRange selected_range.1 selected_range.2
    let g2 : Globals := { treemap_value := g.treemap_value,
                          years_to_average := yrs,
                          grouped_df := aggregate yrs melted }
    ({ tree := treeForSearch melted g2.grouped_df g2.treemap_value searched,
       year_text := yearText selected_range,
       barchart_style := Display.hidden, dotplot_style := Display.hidden,
       piechart_style := Display.hidden, test_text := "" }, g2)

/-- The Dash components relevant to the country-scoped charts: their
styles, their figures' datasets, and the `test-text` heading. A callback
overwrites exactly the components it lists as Outputs and leaves the
others as they were. -/
structure Components where
  barchart_style : Display
  dotplot_style : Display
  piechart_style : Display
  barchart_figure : List LongRow
  dotplot_figure : List LongRow
  piechart_figure : List LongRow
  test_text : String
deriving DecidableEq, Repr

/-- Applying `update_treemap`'s Outputs to the component state: the
callback outputs the three styles and the `test-text` (besides the
treemap figure and year text), but none of the three chart figures. -/
def applyTreemapOutput (c : Components) (o : TreemapOutput) : Components :=
  { c with barchart_style := o.barchart_style,
           dotplot_style := o.dotplot_style,
           piechart_style := o.piechart_style,
           test_text := o.test_text }

/-- A component state in which the three country-scoped charts are
visible, as after a country click. -/
def visibleComponents : Components :=
  { barchart_style := Display.block, dotplot_style := Display.block,
    piechart_style := Display.block, barchart_figure := [],
    dotplot_figure := [], piechart_figure := [], test_text := "stats" }

/-- Startup-like globals with an empty aggregate. -/
def emptyGlobals : Globals :=
  { treemap_value := "net consumption", years_to_average := [],
    grouped_df := [] }

/-- C2 counterexample: with the three country-scoped charts visible, a
feature-choice change (trigger `treemap-choice`) outputs
`{'display': 'none'}` for them, so their visibility does not stay exactly
as it was before the change. -/
theorem feature_change_hides_charts_cex :
    (applyTreemapOutput visibleComponents
        (update_treemap [] Trigger.treemapChoice none "imports" (1980, 2021)
          emptyGlobals).1).barchart_style ≠
      visibleComponents.barchart_style := by
  decide

/-- C2 amended: a feature-choice change updates the selected feature and
redraws the treemap with it (leaving `grouped_df` and `years_to_average`
unchanged), and it leaves the three country-scoped charts' figures
untouched — but it always sets their styles to `{'display': 'none'}` and
clears the status text, rather than leaving their visibility as it was. -/
theorem feature_change_effects (melted : List LongRow)
    (searched : Option String) (v : String) (r : Int × Int) (g : Globals)
    (c : Components) :
    (update_treemap melted Trigger.treemapChoice searched v r g).2 =
      { g with treemap_value := v } ∧
    (update_treemap melted Trigger.treemapChoice searched v r g).1.tree =
      treeForSearch melted g.grouped_df v searched ∧
    (update_treemap melted Trigger.treemapChoice searched v r g).1.barchart_style
      = Display.hidden ∧
    (update_treemap melted Trigger.treemapChoice searched v r g).1.dotplot_style
      = Display.hidden ∧
    (update_treemap melted Trigger.treemapChoice searched v r g).1.piechart_style
      = Display.hidden ∧
    (update_treemap melted Trigger.treemapChoice searched v r g).1.test_text
      = "" ∧
    (applyTreemapOutput c
        (update_treemap melted Trigger.treemapChoice searched v r g).1).barchart_figure
      = c.barchart_figure ∧
    (applyTreemapOutput c
        (update_treemap melted Trigger.treemapChoice searched v r g).1).dotplot_figure
      = c.dotplot_figure ∧
    (applyTreemapOutput c
        (update_treemap melted Trigger.treemapChoice searched v r g).1).piechart_figure
      = c.piechart_figure :=
  ⟨rfl, rfl, rfl, rfl, rfl, rfl, rfl, rfl, rfl⟩

/-- Modelled from the claim's words, for comparison with the code: the
aggregate filtered to exactly the given country's rows for the given
feature. -/
def claimCountryFeatureRows (agg : List AggRow) (country feature : String) :
    List AggRow :=
  agg.filter fun r => decide (r.country = country) && decide (r.features = feature)

/-- An aggregate row for a country whose stored name is not invariant
under `str.title()`. -/
def bosniaAggRow : AggRow :=
  { country := "Bosnia and Herzegovina", region := "Europe",
    features := "net consumption", value := none }

/-- A long row putting "Bosnia and Herzegovina" into the country
vocabulary. -/
def bosniaLongRow : LongRow :=
  { country := "Bosnia and Herzegovina", features := "net consumption",
    region := "Europe", year := some 2020, value := none }

/-- Globals whose aggregate holds the Bosnia row. -/
def bosniaGlobals : Globals :=
  { treemap_value := "net consumption", years_to_average := [some 2020],
    grouped_df := [bosniaAggRow] }

/-- C4 counterexample: "Bosnia and Herzegovina" is in the country
vocabulary, yet searching for it yields the empty treemap dataset —
the filter compares against `searched.title()` =
"Bosnia And Herzegovina" — instead of exactly that country's rows for the
current feature. -/
theorem search_title_mismatch_cex :
    knownCountry [bosniaLongRow] "Bosnia and Herzegovina" = true ∧
    (update_treemap [bosniaLongRow] Trigger.treemapSearch
        (some "Bosnia and Herzegovina") "net consumption" (2020, 2020)
        bosniaGlobals).1.tree = [] ∧
    claimCountryFeatureRows bosniaGlobals.grouped_df "Bosnia and Herzegovina"
        "net consumption" = [bosniaAggRow] := by
  refine ⟨by decide, by decide, by decide⟩

/-- C4 amended: for a search string that is in the country vocabulary,
the treemap selector returns the aggregate filtered to Country equal to
the *title-cased* search string and to the current feature; this is
exactly the searched country's rows precisely when the stored name is
invariant under `str.title()`. -/
theorem search_filters_title (melted : List LongRow) (g : Globals)
    (v : String) (r : Int × Int) (s : String)
    (h : s ∈ melted.map LongRow.country) :
    (update_treemap melted Trigger.treemapSearch (some s) v r g).1.tree =
      claimCountryFeatureRows g.grouped_df (pyTitle s) g.treemap_value := by
  have hk : knownCountry melted s = true := decide_eq_true h
  show treeForSearch melted g.grouped_df g.treemap_value (some s) = _
  simp only [treeForSearch, hk, if_true, create_treemap, claimCountryFeatureRows]
  rw [List.filter_filter]
  exact List.filter_congr fun a ha => by rw [Bool.and_comm]

/-- Globals whose aggregate holds one France row. -/
def franceGlobals : Globals :=
  { treemap_value := "imports", years_to_average := [some 2020],
    grouped_df := [{ country := "France", region := "Europe",
                     features := "imports", value := none }] }

theorem search_filters_title_witness :
    (update_treemap [row2020] Trigger.treemapSearch (some "France") "imports"
        (2020, 2020) franceGlobals).1.tree =
      claimCountryFeatureRows franceGlobals.grouped_df (pyTitle "France")
        franceGlobals.treemap_value :=
  search_filters_title [row2020] franceGlobals "imports" (2020, 2020) "France"
    (by decide)

/-- C5: a search string that is not in the country vocabulary produces
the same treemap dataset as an empty (cleared, `None`) search: the filter
is ignored and the unfiltered aggregate for the current feature is
drawn. -/
theorem search_unknown_fallback (melted : List LongRow) (g : Globals)
    (v : String) (r : Int × Int) (s : String)
    (h : s ∉ melted.map LongRow.country) :
    (update_treemap melted Trigger.treemapSearch (some s) v r g).1.tree =
      (update_treemap melted Trigger.treemapSearch none v r g).1.tree := by
  have hk : knownCountry melted s = false := by
    simp [knownCountry, h]
  show treeForSearch melted g.grouped_df g.treemap_value (some s) =
    treeForSearch melted g.grouped_df g.treemap_value none
  simp [treeForSearch, hk]

theorem search_unknown_fallback_witness :
    (update_treemap [row2020] Trigger.treemapSearch (some "Atlantis") "imports"
        (2020, 2020) franceGlobals).1.tree =
      (update_treemap [row2020] Trigger.treemapSearch none "imports"
        (2020, 2020) franceGlobals).1.tree :=
  search_unknown_fallback [row2020] franceGlobals "imports" (2020, 2020)
    "Atlantis" (by decide)

/-- The dataset of `create_barchart(melted, country)`: rows whose Country
equals the given country, whose Features is in {imports, exports} and
whose Year is in the global `years_to_average`, with missing Values
dropped by `dropna(subset=['Value'])`. (The source indexes the
module-level `melted_data` for the Year mask; the callback always passes
that same table, so a single table parameter is faithful. The `px.bar`
figure built from the dataset is rendering.) -/
def create_barchart (melted : List LongRow)
    (years_to_average : List (Option Int)) (country : String) : List LongRow :=
  (melted.filter fun r =>
    decide (r.country = country) &&
      decide (r.features ∈ ["imports", "exports"]) &&
      yearIsIn years_to_average r).filter fun r => r.value.isSome

/-- The dataset of `create_dotplot(df, country)` (the line/trend chart):
the same filtering pattern restricted to Features in
{net generation, net consumption}. -/
def create_dotplot (melted : List LongRow)
    (years_to_average : List (Option Int)) (country : String) : List LongRow :=
  (melted.filter fun r =>
    decide (r.country = country) &&
      decide (r.features ∈ ["net generation", "net consumption"]) &&
      yearIsIn years_to_average r).filter fun r => r.value.isSome

/-- The dataset of `create_piechart(df, country)`: the same filtering
pattern restricted to Features in
{imports, net generation, distribution losses}. -/
def create_piechart (melted : List LongRow)
    (years_to_average : List (Option Int)) (country : String) : List LongRow :=
  (melted.filter fun r =>
    decide (r.country = country) &&
      decide (r.features ∈ ["imports", "net generation", "distribution losses"]) &&
      yearIsIn years_to_average r).filter fun r => r.value.isSome

/-- C7: each of the three country-scoped selectors returns an empty
dataset — rather than failing — whenever the country parameter matches no
row of the long table; in particular for the empty string, which never
occurs as a (stripped, non-empty) country name of the app's table. -/
theorem selectors_empty_no_match (melted : List LongRow)
    (years : List (Option Int)) (country : String)
    (h : ∀ r ∈ melted, r.country ≠ country) :
    create_barchart melted years country = [] ∧
    create_dotplot melted years country = [] ∧
    create_piechart melted years country = [] := by
  have hmask : ∀ feats : List String,
      (melted.filter fun r =>
        decide (r.country = country) && decide (r.features ∈ feats) &&
          yearIsIn years r) = [] := by
    intro feats
    rw [List.filter_eq_nil_iff]
    intro r hr
    simp [h r hr]
  refine ⟨?_, ?_, ?_⟩
  · unfold create_barchart
    rw [hmask, List.filter_nil]
  · unfold create_dotplot
    rw [hmask, List.filter_nil]
  · unfold create_piechart
    rw [hmask, List.filter_nil]

theorem selectors_empty_no_match_witness :
    create_barchart [row2020] [some 2020] "" = [] ∧
    create_dotplot [row2020] [some 2020] "" = [] ∧
    create_piechart [row2020] [some 2020] "" = [] :=
  selectors_empty_no_match [row2020] [some 2020] "" (by decide)

/-- One entry of `selected_data['points']`; its label field is missing
(`none`) when the payload lacks the expected `'label'` key. -/
structure ClickPoint where
  label : Option String
deriving DecidableEq, Repr

/-- A treemap click payload: the list under `selected_data['points']`. -/
structure ClickData where
  points : List ClickPoint
deriving DecidableEq, Repr

/-- The Outputs of the `update_country_graphs` callback: the `test-text`
status string and, for each of the three country-scoped charts, its style
and its figure's dataset. The source returns the same `hide` dict for all
three styles. -/
structure CountryGraphsOutput where
  test_text : String
  barchart_style : Display
  barchart : List LongRow
  dotplot_style : Display
  dotplot : List LongRow
  piechart_style : Display
  piechart : List LongRow
deriving DecidableEq, Repr

/-- The callback `update_country_graphs(selected_data)`. With no payload,
text is empty and the charts are hidden. Otherwise the label of the first
point is read inside a `try`: a missing points entry or a missing label
field raises and the `except` resets text and country and hides the
charts. A label in the country vocabulary shows the charts with the
drill-down status text; any other label hides them with the
"Selected Region" text (and that label is still passed to the selectors,
where it matches no Country). Finally the three selectors build the
charts for whatever country string resulted. -/
def update_country_graphs (melted : List LongRow)
    (years_to_average : List (Option Int)) (selected_data : Option ClickData) :
    CountryGraphsOutput :=
  let thc : String × Display × String :=
    match selected_data with
    | none => ("", Display.hidden, "")
    | some d =>
      match d.points.head? with
      | none => ("", Display.hidden, "")
      | some p =>
        match p.label with
        | none => ("", Display.hidden, "")
        | some c =>
          if knownCountry melted c then
            ("↓ Statistics for selected country: " ++ c ++ " ↓",
              Display.block, c)
          else
            ("Selected Region: " ++ c, Display.hidden, c)
  { test_text := thc.1,
    barchart_style := thc.2.1,
    barchart := create_barchart melted years_to_average thc.2.2,
    dotplot_style := thc.2.1,
    dotplot := create_dotplot melted years_to_average thc.2.2,
    piechart_style := thc.2.1,
    piechart := create_piechart melted years_to_average thc.2.2 }

/-- A click payload on which `selected_data['points'][0]['label']` cannot
be read: no payload at all, an empty points list, or a first point with
no label field. -/
def malformedClick : Option ClickData → Bool
  | none => true
  | some d =>
    match d.points.head? with
    | none => true
    | some p => p.label.isNone

/-- C8: on every unexpected or malformed click payload the handler
recovers locally: its output equals the no-payload output — no country
selected, empty status text, all three country-scoped charts hidden, and
the charts built for the empty country string — and, being a total
function, it raises nothing. -/
theorem malformed_click_recovers (melted : List LongRow)
    (years : List (Option Int)) (sd : Option ClickData)
    (h : malformedClick sd = true) :
    update_country_graphs melted years sd =
      update_country_graphs melted years none ∧
    (update_country_graphs melted years sd).test_text = "" ∧
    (update_country_graphs melted years sd).barchart_style = Display.hidden ∧
    (update_country_graphs melted years sd).dotplot_style = Display.hidden ∧
    (update_country_graphs melted years sd).piechart_style = Display.hidden ∧
    (update_country_graphs melted years sd).barchart =
      create_barchart melted years "" := by
  rcases sd with _ | ⟨⟨pts⟩⟩
  · exact ⟨rfl, rfl, rfl, rfl, rfl, rfl⟩
  · rcases pts with _ | ⟨⟨lab⟩, rest⟩
    · exact ⟨rfl, rfl, rfl, rfl, rfl, rfl⟩
    · rcases lab with _ | c
      · exact ⟨rfl, rfl, rfl, rfl, rfl, rfl⟩
      · simp [malformedClick] at h

theorem malformed_click_recovers_witness :
    (update_country_graphs [row2020] [some 2020] (some { points := [] }) =
      update_country_graphs [row2020] [some 2020] none) ∧
    (update_country_graphs [row2020] [some 2020]
        (some { points := [] })).test_text = "" ∧
    (update_country_graphs [row2020] [some 2020]
        (some { points := [] })).barchart_style = Display.hidden ∧
    (update_country_graphs [row2020] [some 2020]
        (some { points := [] })).dotplot_style = Display.hidden ∧
    (update_country_graphs [row2020] [some 2020]
        (some { points := [] })).piechart_style = Display.hidden ∧
    (update_country_graphs [row2020] [some 2020]
        (some { points := [] })).barchart =
      create_barchart [row2020] [some 2020] "" :=
  malformed_click_recovers [row2020] [some 2020] (some { points := [] })
    (by decide)

/-- C9: clicking a treemap label that is a known region name and not a
known country hides all three country-scoped charts and sets the status
text to "Selected Region: " followed by the name. -/
theorem region_click_hides (melted : List LongRow)
    (years : List (Option Int)) (l : String)
    (h1 : l ∈ melted.map LongRow.region)
    (h2 : l ∉ melted.map LongRow.country) :
    (update_country_graphs melted years
        (some { points := [{ label := some l }] })).test_text =
      "Selected Region: " ++ l ∧
    (update_country_graphs melted years
        (some { points := [{ label := some l }] })).barchart_style =
      Display.hidden ∧
    (update_country_graphs melted years
        (some { points := [{ label := some l }] })).dotplot_style =
      Display.hidden ∧
    (update_country_graphs melted years
        (some { points := [{ label := some l }] })).piechart_style =
      Display.hidden := by
  have hk : knownCountry melted l = false := by
    simp [knownCountry, h2]
  refine ⟨?_, ?_, ?_, ?_⟩ <;> simp [update_country_graphs, hk]

theorem region_click_hides_witness :
    (update_country_graphs [row2020] [some 2020]
        (some { points := [{ label := some "Europe" }] })).test_text =
      "Selected Region: " ++ "Europe" ∧
    (update_country_graphs [row2020] [some 2020]
        (some { points := [{ label := some "Europe" }] })).barchart_style =
      Display.hidden ∧
    (update_country_graphs [row2020] [some 2020]
        (some { points := [{ label := some "Europe" }] })).dotplot_style =
      Display.hidden ∧
    (update_country_graphs [row2020] [some 2020]
        (some { points := [{ label := some "Europe" }] })).piechart_style =
      Display.hidden :=
  region_click_hides [row2020] [some 2020] "Europe" (by decide) (by decide)

/-- C10: clicking a treemap label that is a known country reveals the
three country-scoped charts, populates them through the three view
selectors for that country, and sets the status text to the indicator
character '↓' followed by " Statistics for selected country: ", the name
and a trailing indicator. -/
theorem country_click_reveals (melted : List LongRow)
    (years : List (Option Int)) (l : String)
    (h : l ∈ melted.map LongRow.country) :
    (update_country_graphs melted years
        (some { points := [{ label := some l }] })).test_text =
      "↓ Statistics for selected country: " ++ l ++ " ↓" ∧
    (update_country_graphs melted years
        (some { points := [{ label := some l }] })).barchart_style =
      Display.block ∧
    (update_country_graphs melted years
        (some { points := [{ label := some l }] })).dotplot_style =
      Display.block ∧
    (update_country_graphs melted years
        (some { points := [{ label := some l }] })).piechart_style =
      Display.block ∧
    (update_country_graphs melted years
        (some { points := [{ label := some l }] })).barchart =
      create_barchart melted years l ∧
    (update_country_graphs melted years
        (some { points := [{ label := some l }] })).dotplot =
      create_dotplot melted years l ∧
    (update_country_graphs melted years
        (some { points := [{ label := some l }] })).piechart =
      create_piechart melted years l := by
  have hk : knownCountry melted l = true := decide_eq_true h
  refine ⟨?_, ?_, ?_, ?_, ?_, ?_, ?_⟩ <;> simp [update_country_graphs, hk]

theorem country_click_reveals_witness :
    (update_country_graphs [row2020] [some 2020]
        (some { points := [{ label := some "France" }] })).test_text =
      "↓ Statistics for selected country: " ++ "France" ++ " ↓" ∧
    (update_country_graphs [row2020] [some 2020]
        (some { points := [{ label := some "France" }] })).barchart_style =
      Display.block ∧
    (update_country_graphs [row2020] [some 2020]
        (some { points := [{ label := some "France" }] })).dotplot_style =
      Display.block ∧
    (update_country_graphs [row2020] [some 2020]
        (some { points := [{ label := some "France" }] })).piechart_style =
      Display.block ∧
    (update_country_graphs [row2020] [some 2020]
        (some { points := [{ label := some "France" }] })).barchart =
      create_barchart [row2020] [some 2020] "France" ∧
    (update_country_graphs [row2020] [some 2020]
        (some { points := [{ label := some "France" }] })).dotplot =
      create_dotplot [row2020] [some 2020] "France" ∧
    (update_country_graphs [row2020] [some 2020]
        (some { points := [{ label := some "France" }] })).piechart =
      create_piechart [row2020] [some 2020] "France" :=
  country_click_reveals [row2020] [some 2020] "France" (by decide)

end App
